import Mathlib

/-!
Shallow embedding of the statistical aggregation and classification engine of
`src/main.py` (soil-chemistry statistics API).  Numeric values are modelled by
`ℚ` (the Python code computes with floats on decimal data; every comparison and
arithmetic step relevant to the claims is exact), except for the two statistics
whose final step is a square root (`datos.std()` and `datos.skew()`), which are
modelled in `ℝ` via `Real.sqrt`.  A Python float `NaN` outcome is modelled as
`Option.none`.
-/

/-- The low band of a reference range: `{'max': ..., 'descripcion': ...}`
(`VALORES_REFERENCIA[p]['bajo']`, src/main.py lines 39-110).  Every entry of
the table carries both keys, so the `'max' in ref['bajo']` test of line 128 is
always true and the band is embedded with both fields present. -/
structure RangoBajo where
  max : ℚ
  descripcion : String
deriving DecidableEq

/-- The mid band: `{'min': ..., 'max': ..., 'descripcion': ...}`
(`VALORES_REFERENCIA[p]['medio']`).  All three keys are present in every entry
of the source table, so the key-presence tests of line 146 are always true. -/
structure RangoMedio where
  min : ℚ
  max : ℚ
  descripcion : String
deriving DecidableEq

/-- The high band: `{'min': ..., 'descripcion': ...}`
(`VALORES_REFERENCIA[p]['alto']`). -/
structure RangoAlto where
  min : ℚ
  descripcion : String
deriving DecidableEq

/-- One entry of the reference table: the three bands of one parameter. -/
structure Rango where
  bajo : RangoBajo
  medio : RangoMedio
  alto : RangoAlto
deriving DecidableEq

/-- `VALORES_REFERENCIA` (src/main.py lines 39-110): the immutable reference
table, as an association list preserving the insertion order of the Python
dict (the order matters because `list(VALORES_REFERENCIA.keys())` is used as
the column list of the interpretation report).  The source's decimal float
literals are written as the exact rationals they denote (5.5 = 11/2,
0.3 = 3/10, 0.2 = 1/5, 0.6 = 3/5, 0.5 = 1/2, 7.5 = 15/2, integers as
themselves). -/
def VALORES_REFERENCIA : List (String × Rango) :=
  [("ph", ⟨⟨11/2, "ácido"⟩, ⟨6, 7, "óptimo"⟩, ⟨15/2, "alcalino"⟩⟩),
   ("mo", ⟨⟨2, "< 2%"⟩, ⟨2, 4, "2-4%"⟩, ⟨4, "> 4%"⟩⟩),
   ("n_inorganico", ⟨⟨15, "< 15 mg/kg"⟩, ⟨16, 29, "16-29 mg/kg"⟩, ⟨30, "> 30 mg/kg"⟩⟩),
   ("fosforo", ⟨⟨20, "< 20 mg/kg"⟩, ⟨20, 40, "20-40 mg/kg"⟩, ⟨40, "> 40 mg/kg"⟩⟩),
   ("k", ⟨⟨3/10, "< 0.3 cmol/kg"⟩, ⟨3/10, 3/5, "0.3-0.6 cmol/kg"⟩, ⟨3/5, "> 0.6 cmol/kg"⟩⟩),
   ("mg", ⟨⟨1/5, "< 0.2 cmol/kg"⟩, ⟨1/5, 1/2, "0.2-0.5 cmol/kg"⟩, ⟨1/2, "> 0.5 cmol/kg"⟩⟩),
   ("ca", ⟨⟨2, "< 2 cmol/kg"⟩, ⟨2, 5, "2-5 cmol/kg"⟩, ⟨5, "> 5 cmol/kg"⟩⟩),
   ("azufre", ⟨⟨10, "< 10 mg/kg"⟩, ⟨10, 20, "10-20 mg/kg"⟩, ⟨20, "> 20 mg/kg"⟩⟩),
   ("hierro", ⟨⟨10, "< 10 mg/kg"⟩, ⟨10, 40, "10-40 mg/kg"⟩, ⟨40, "> 40 mg/kg"⟩⟩),
   ("cobre", ⟨⟨1/2, "< 0.5 mg/kg"⟩, ⟨1/2, 1, "0.5-1 mg/kg"⟩, ⟨1, "> 1 mg/kg"⟩⟩),
   ("zinc", ⟨⟨1, "< 1 mg/kg"⟩, ⟨1, 3, "1-3 mg/kg"⟩, ⟨3, "> 3 mg/kg"⟩⟩),
   ("manganeso", ⟨⟨5, "< 5 mg/kg"⟩, ⟨5, 20, "5-20 mg/kg"⟩, ⟨20, "> 20 mg/kg"⟩⟩),
   ("boro", ⟨⟨1/2, "< 0.5 mg/kg"⟩, ⟨1/2, 1, "0.5-1 mg/kg"⟩, ⟨1, "> 1 mg/kg"⟩⟩),
   ("cic", ⟨⟨10, "suelo pobre"⟩, ⟨10, 25, "normal"⟩, ⟨25, "suelo rico"⟩⟩)]

/-- The dict returned by `interpretar_valor`: keys `valor`, `interpretacion`,
`nivel`, `descripcion` (src/main.py lines 116-161). -/
structure Interpretacion where
  valor : ℚ
  interpretacion : String
  nivel : String
  descripcion : String
deriving DecidableEq

/-- `interpretar_valor(parametro, valor)` (src/main.py lines 112-161): the
classifier.  Band tests run in the source's order: unknown parameter, then low
(`valor <= ref['bajo']['max']`), then high (`valor >= ref['alto']['min']`),
then mid (`ref['medio']['min'] <= valor <= ref['medio']['max']`), else out of
range.  The dict-key presence tests (`'max' in ref['bajo']`, `'medio' in ref`,
…) are true for every entry of `VALORES_REFERENCIA`, hence not re-modelled. -/
def interpretar_valor (parametro : String) (valor : ℚ) : Interpretacion :=
  match VALORES_REFERENCIA.lookup parametro with
  | none =>
      ⟨valor, "No hay referencia disponible", "sin_referencia",
        "Parámetro sin valores de referencia definidos"⟩
  | some ref =>
      if valor ≤ ref.bajo.max then
        ⟨valor, "BAJO", "bajo", ref.bajo.descripcion⟩
      else if valor ≥ ref.alto.min then
        ⟨valor, "ALTO", "alto", ref.alto.descripcion⟩
      else if ref.medio.min ≤ valor ∧ valor ≤ ref.medio.max then
        ⟨valor, "MEDIO", "medio", ref.medio.descripcion⟩
      else
        ⟨valor, "FUERA DE RANGO", "fuera_rango",
          "Valor no se encuentra en los rangos definidos"⟩

/-- `columnas_interpretacion = list(VALORES_REFERENCIA.keys())`
(src/main.py line 194). -/
def columnas_interpretacion : List String := VALORES_REFERENCIA.map Prod.fst

/-- `columnas_estadisticas` (src/main.py lines 301-307). -/
def columnas_estadisticas : List String :=
  ["arcilla", "limo", "arena", "da", "ph", "mo", "fosforo",
   "n_inorganico", "k", "mg", "ca", "na", "al", "cic",
   "cic_calculada", "h", "azufre", "hierro", "cobre",
   "zinc", "manganeso", "boro", "ca_mg", "mg_k", "ca_k",
   "ca_mg_k", "k_mg"]

/-- Insert a value into an already-sorted list (ascending). -/
def insertarOrdenado (x : ℚ) : List ℚ → List ℚ
  | [] => [x]
  | y :: ys => if x ≤ y then x :: y :: ys else y :: insertarOrdenado x ys

/-- Ascending sort of a sample series, as performed internally by
`datos.median()` / `datos.quantile(...)` before selecting order statistics. -/
def ordenar (l : List ℚ) : List ℚ := l.foldr insertarOrdenado []

/-- `float(datos.mean())`: arithmetic mean (junk value `0` on the empty list;
every call site guards `len(datos) > 0`). -/
def media (l : List ℚ) : ℚ := l.sum / l.length

/-- Sum of squared deviations from the mean, the quantity pandas divides by
`n - 1` (default `ddof=1`) inside `datos.std()`. -/
def sumaDesv2 (l : List ℚ) : ℚ := (l.map fun x => (x - media l) ^ 2).sum

/-- Sum of cubed deviations from the mean, the `m3` of pandas `nanskew`. -/
def sumaDesv3 (l : List ℚ) : ℚ := (l.map fun x => (x - media l) ^ 3).sum

/-- `float(datos.median())` (src/main.py line 356; also line 234): sample
median — middle order statistic for odd counts, average of the two middle
order statistics for even counts; `none` on the empty series. -/
def mediana (l : List ℚ) : Option ℚ :=
  match l with
  | [] => none
  | _ :: _ =>
      let s := ordenar l
      let n := s.length
      if n % 2 = 1 then some (s.getD (n / 2) 0)
      else some ((s.getD (n / 2 - 1) 0 + s.getD (n / 2) 0) / 2)

/-- The largest occurrence count over a series (`moda_result.count[0]` of
`scipy.stats.mode`). -/
def cuentaMax (l : List ℚ) : ℕ := (l.map fun v => l.count v).foldr Nat.max 0

/-- Smallest element of a list, `none` when empty. -/
def minimo? : List ℚ → Option ℚ
  | [] => none
  | x :: xs =>
      match minimo? xs with
      | none => some x
      | some m => some (if x ≤ m then x else m)

/-- Largest element of a list, `none` when empty (`datos.max()`). -/
def maximo? : List ℚ → Option ℚ
  | [] => none
  | x :: xs =>
      match maximo? xs with
      | none => some x
      | some m => some (if x ≤ m then m else x)

/-- The mode computation of src/main.py lines 347-352:
`scipy.stats.mode` returns the smallest among the most frequent values; the
code keeps it only when its count exceeds 1 (`moda_result.count[0] > 1`) and
otherwise falls back to the first element `datos.iloc[0]`; a single-element
series short-circuits to its only element. -/
def moda (datos : List ℚ) : Option ℚ :=
  match datos with
  | [] => none
  | x :: xs =>
      if 1 < (x :: xs).length then
        if 1 < cuentaMax (x :: xs) then
          minimo? ((x :: xs).filter fun v => (x :: xs).count v == cuentaMax (x :: xs))
        else some x
      else some x

/-- Modelled from the spec: "value with the highest occurrence count;
tie-break …: return the *first* value in original input order" — highest
occurrence count, ties broken by lowest first-seen index. -/
def modaPrimerValor (datos : List ℚ) : Option ℚ :=
  (datos.filter fun v => datos.count v == cuentaMax datos).head?

/-- `float(datos.std())` (src/main.py line 359): pandas sample standard
deviation with its default `ddof=1`, i.e. `sqrt(sum((x - mean)^2) / (n - 1))`;
`NaN` (here `none`) when `n < 2` because zero degrees of freedom remain. -/
noncomputable def desviacion_estandar (l : List ℚ) : Option ℝ :=
  if 2 ≤ l.length then
    some (Real.sqrt ((sumaDesv2 l : ℝ) / ((l.length : ℝ) - 1)))
  else none

/-- Modelled from the spec: "population standard deviation (divide sum of
squared deviations by n, not n−1)" — the claimed convention, for comparison
with the code's `desviacion_estandar`. -/
noncomputable def desviacionPoblacional (l : List ℚ) : ℝ :=
  Real.sqrt ((sumaDesv2 l : ℝ) / (l.length : ℝ))

/-- `float(datos.skew())` (src/main.py line 358): pandas `nanskew`, the
bias-adjusted Fisher-Pearson coefficient
`count * (count - 1) ** 0.5 / (count - 2) * (m3 / m2 ** 1.5)` on the central
moment sums `m2 = sumaDesv2`, `m3 = sumaDesv3`; the result is `0` when
`m2 == 0` and `NaN` (here `none`) when `count < 3`. -/
noncomputable def sesgo (l : List ℚ) : Option ℝ :=
  if l.length < 3 then none
  else if sumaDesv2 l = 0 then some 0
  else
    some ((l.length : ℝ) * Real.sqrt ((l.length : ℝ) - 1) / ((l.length : ℝ) - 2) *
      ((sumaDesv3 l : ℝ) / Real.sqrt ((sumaDesv2 l : ℝ) ^ 3)))

/-- Modelled from the spec: "biased (population) Fisher-Pearson third
standardized moment: g1 = (mean of (xi−mean)^3) / (population stddev)^3". -/
noncomputable def sesgoPoblacional (l : List ℚ) : ℝ :=
  ((sumaDesv3 l : ℝ) / (l.length : ℝ)) / desviacionPoblacional l ^ 3

/-- `float(datos.quantile(p))` (src/main.py lines 363-364): pandas linear
interpolation between order statistics — on the sorted series `s` of length
`n`, with virtual index `h = p * (n - 1)`, `j = floor h` and fraction
`g = h - j`, the result is `s[j] + g * (s[j+1] - s[j])` (the neighbour index
is only read when `g > 0`, which for `0 ≤ p ≤ 1` keeps it in bounds; the
out-of-bounds default collapses to `s[j]`).  `none` on the empty series. -/
def cuantil (l : List ℚ) (p : ℚ) : Option ℚ :=
  match l with
  | [] => none
  | _ :: _ =>
      let s := ordenar l
      let n := s.length
      let hv : ℚ := p * ((n : ℚ) - 1)
      let j : ℕ := (⌊hv⌋).toNat
      let g : ℚ := hv - (j : ℚ)
      let a := s.getD j 0
      let b := s.getD (j + 1) a
      some (a + g * (b - a))

/-- Modelled from the spec: "25th/75th percentile using linear interpolation
between order statistics (the conventional type 7 quantile estimator)" —
`Q(p) = (1 - g) * x_j + g * x_(j+1)` on the order statistics `x_0 ≤ … ≤
x_(n-1)`, with `j = floor((n - 1) * p)`, `g` its fractional part, and the
upper index clamped to the last order statistic. -/
def cuantilTipo7 (l : List ℚ) (p : ℚ) : ℚ :=
  let s := ordenar l
  let n := s.length
  let hv : ℚ := p * ((n : ℚ) - 1)
  let j : ℕ := (⌊hv⌋).toNat
  let g : ℚ := hv - (j : ℚ)
  (1 - g) * s.getD j 0 + g * s.getD (min (j + 1) (n - 1)) 0

/-- One raw row of `analisis_quimicos_validados`: the group identity columns
plus the numeric parameter columns (`valores c = none` models SQL NULL, which
`dropna()` removes). -/
structure Fila where
  municipio_id_FK : ℤ
  municipio : String
  valores : String → Option ℚ

/-- The filter of the two report entry points: the helper functions are called
with `("municipio_id_FK", municipio_id)` from the by-id route and
`("municipio", municipio_nombre)` from the by-name route (src/main.py lines
176, 183, 283, 290). -/
inductive Filtro where
  | porId (id : ℤ)
  | porNombre (nombre : String)

/-- The row set returned by `SELECT … FROM analisis_quimicos_validados WHERE
{campo} = %s` over a database modelled as a list of rows. -/
def filtrar (db : List Fila) (f : Filtro) : List Fila :=
  db.filter fun fila =>
    match f with
    | Filtro.porId i => fila.municipio_id_FK == i
    | Filtro.porNombre s => fila.municipio == s

/-- A leaf of the `interpretaciones` mapping (src/main.py lines 237-253):
either the computed dict (`mediana`, `interpretacion`, `nivel`,
`descripcion`, `muestras_validas`), or the error dict of the `except` branch,
or the `"No hay datos válidos"` dict for a parameter with zero valid
samples. -/
inductive HojaInterpretacion where
  | ok (mediana : ℚ) (interpretacion : String) (nivel : String)
      (descripcion : String) (muestras_validas : ℕ)
  | error (detalle : String)
  | sinDatos
deriving DecidableEq

/-- The body of the per-parameter loop of `obtener_interpretacion_municipio`
(src/main.py lines 228-253).  The `parametro in df.columns` test is always
true because the query selects exactly these columns.  The `try/except`
around the numeric kernel is modelled by the oracle `falla`: `falla p = some
e` means the float/pandas layer raised exception `e` while computing
parameter `p` (the pure embedding itself cannot raise). -/
def hojaInterpretacionDe (falla : String → Option String) (df : List Fila)
    (parametro : String) : HojaInterpretacion :=
  let datos := df.filterMap fun fila => fila.valores parametro
  if 0 < datos.length then
    match falla parametro with
    | some e => HojaInterpretacion.error ("No se pudo interpretar: " ++ e)
    | none =>
        let m := (mediana datos).getD 0
        let interp := interpretar_valor parametro m
        HojaInterpretacion.ok m interp.interpretacion interp.nivel
          interp.descripcion datos.length
  else HojaInterpretacion.sinDatos

/-- The `interpretaciones` mapping built by the loop of src/main.py lines
226-253, one leaf per key of `VALORES_REFERENCIA`, in key order. -/
def construir_interpretaciones (falla : String → Option String)
    (df : List Fila) : List (String × HojaInterpretacion) :=
  columnas_interpretacion.map fun p => (p, hojaInterpretacionDe falla df p)

/-- The dict returned by `obtener_interpretacion_municipio`; `none` fields
model absent keys (the empty-result dict of lines 206-211 carries only one
identity key, a message and an empty mapping). -/
structure ResultadoInterpretacion where
  municipio_id : Option ℤ
  municipio_nombre : Option String
  mensaje : Option String
  total_registros : Option ℕ
  interpretaciones : Option (List (String × HojaInterpretacion))
deriving DecidableEq

/-- `obtener_interpretacion_municipio(campo, valor)` (src/main.py lines
185-276), happy path (no database error).  With zero matching rows it returns
the minimal no-data dict whose only identity key is the one matching the
filter column; otherwise it resolves both identity fields from the first
matching row (`info_query` with `LIMIT 1` re-runs the same filter), counts the
rows, and builds the per-parameter mapping. -/
def obtener_interpretacion_municipio (falla : String → Option String)
    (db : List Fila) (f : Filtro) : ResultadoInterpretacion :=
  match filtrar db f, f with
  | [], Filtro.porId i =>
      ⟨some i, none, some "No hay datos para este municipio", none, some []⟩
  | [], Filtro.porNombre s =>
      ⟨none, some s, some "No hay datos para este municipio", none, some []⟩
  | fila :: resto, _ =>
      ⟨some fila.municipio_id_FK, some fila.municipio, none,
        some (fila :: resto).length,
        some (construir_interpretaciones falla (fila :: resto))⟩

/-- A leaf of the `estadisticas` mapping (src/main.py lines 354-369): the full
statistics dict, or the error dict of the `except` branch, or the no-valid-data
dict.  `sesgo`/`desviacion_estandar` are `Option ℝ` because pandas yields
float `NaN` (`none`) on degenerate counts. -/
inductive HojaEstadisticas where
  | ok (moda mediana media : ℚ) (sesgo desviacion_estandar : Option ℝ)
      (maximo minimo : ℚ) (count : ℕ) (q1 q3 : ℚ)
  | error (detalle : String)
  | sinDatos

/-- The body of the per-column loop of `obtener_estadisticas_municipio`
(src/main.py lines 341-369), with the same exception oracle `falla` as
`hojaInterpretacionDe`. -/
noncomputable def hojaEstadisticasDe (falla : String → Option String)
    (df : List Fila) (columna : String) : HojaEstadisticas :=
  let datos := df.filterMap fun fila => fila.valores columna
  if 0 < datos.length then
    match falla columna with
    | some e => HojaEstadisticas.error ("No se pudieron calcular estadísticas: " ++ e)
    | none =>
        HojaEstadisticas.ok ((moda datos).getD 0) ((mediana datos).getD 0)
          (media datos) (sesgo datos) (desviacion_estandar datos)
          ((maximo? datos).getD 0) ((minimo? datos).getD 0) datos.length
          ((cuantil datos (1/4)).getD 0) ((cuantil datos (3/4)).getD 0)
  else HojaEstadisticas.sinDatos

/-- The `estadisticas` mapping built by the loop of src/main.py lines
339-369, one leaf per statistics column, in column order. -/
noncomputable def construir_estadisticas (falla : String → Option String)
    (df : List Fila) : List (String × HojaEstadisticas) :=
  columnas_estadisticas.map fun c => (c, hojaEstadisticasDe falla df c)

/-- The dict returned by `obtener_estadisticas_municipio`. -/
structure ResultadoEstadisticas where
  municipio_id : Option ℤ
  municipio_nombre : Option String
  mensaje : Option String
  total_registros : Option ℕ
  estadisticas : Option (List (String × HojaEstadisticas))

/-- `obtener_estadisticas_municipio(campo, valor)` (src/main.py lines
292-392), happy path, mirroring `obtener_interpretacion_municipio`. -/
noncomputable def obtener_estadisticas_municipio (falla : String → Option String)
    (db : List Fila) (f : Filtro) : ResultadoEstadisticas :=
  match filtrar db f, f with
  | [], Filtro.porId i =>
      ⟨some i, none, some "No hay datos para este municipio", none, some []⟩
  | [], Filtro.porNombre s =>
      ⟨none, some s, some "No hay datos para este municipio", none, some []⟩
  | fila :: resto, _ =>
      ⟨some fila.municipio_id_FK, some fila.municipio, none,
        some (fila :: resto).length,
        some (construir_estadisticas falla (fila :: resto))⟩

/-- The connection state of one request: `sinAbrir` models `connection =
None`, `abierta` an acquired open connection, `cerrada` a closed one. -/
inductive EstadoConexion where
  | sinAbrir
  | abierta
  | cerrada
deriving DecidableEq

/-- Outcome of a request body: a returned value or a raised exception. -/
inductive Salida (α : Type) where
  | ok (valor : α)
  | error (detalle : String)

/-- The `try` block shared by the three request handlers (src/main.py lines
189-273, 296-389, 399-434): `get_db_connection()` either raises before any
connection is assigned (`conectar = false`, state stays `sinAbrir`) or opens
the connection; the body then returns a value or raises, which the `except`
clauses re-wrap — in every case with the connection still open. -/
def cuerpoConConexion {α : Type} (conectar : Bool) (cuerpo : Salida α) :
    Salida α × EstadoConexion :=
  if conectar then
    (match cuerpo with
     | Salida.ok a => Salida.ok a
     | Salida.error e => Salida.error ("Error: " ++ e),
     EstadoConexion.abierta)
  else (Salida.error "Error connecting to database", EstadoConexion.sinAbrir)

/-- A whole request handler: the `try` block above followed by the `finally`
clause `if connection and connection.is_connected(): connection.close()`
(src/main.py lines 274-276, 390-392, 435-437), which closes the connection
exactly when it is open and runs on every exit path. -/
def manejarPeticion {α : Type} (conectar : Bool) (cuerpo : Salida α) :
    Salida α × EstadoConexion :=
  let r := cuerpoConConexion conectar cuerpo
  (r.1, if r.2 = EstadoConexion.abierta then EstadoConexion.cerrada else r.2)

/-- A sample row for concrete instantiations: municipality 1, name
"Tuxtla", with an `mo` reading of 1, a `zinc` reading of 2, and NULL in every
other column. -/
def fila0 : Fila :=
  ⟨1, "Tuxtla", fun c => if c == "mo" then some 1
    else if c == "zinc" then some 2 else none⟩

/-- A sample exception oracle: the numeric kernel fails on column `zinc`
only. -/
def falla0 : String → Option String :=
  fun p => if p == "zinc" then some "fallo numérico" else none

theorem foldrMax_ge {n : ℕ} : ∀ {ns : List ℕ}, n ∈ ns → n ≤ ns.foldr Nat.max 0
  | m :: ms, h => by
    rcases List.mem_cons.1 h with rfl | h'
    · exact Nat.le_max_left _ _
    · exact Nat.le_trans (foldrMax_ge h') (Nat.le_max_right _ _)

theorem foldrMax_mem_or_zero :
    ∀ ns : List ℕ, ns.foldr Nat.max 0 ∈ ns ∨ ns.foldr Nat.max 0 = 0
  | [] => Or.inr rfl
  | m :: ms => by
    have ih := foldrMax_mem_or_zero ms
    simp only [List.foldr_cons]
    rcases Nat.le_total m (ms.foldr Nat.max 0) with hle | hle
    · have hmax : m.max (ms.foldr Nat.max 0) = ms.foldr Nat.max 0 :=
        Nat.max_eq_right hle
      rw [hmax]
      rcases ih with h | h
      · exact Or.inl (List.mem_cons_of_mem _ h)
      · exact Or.inr h
    · have hmax : m.max (ms.foldr Nat.max 0) = m := Nat.max_eq_left hle
      rw [hmax]
      exact Or.inl (List.mem_cons_self _ _)

theorem count_le_cuentaMax {l : List ℚ} {v : ℚ} (h : v ∈ l) :
    l.count v ≤ cuentaMax l :=
  foldrMax_ge (List.mem_map_of_mem _ h)

theorem cuentaMax_alcanzada {l : List ℚ} (h : l ≠ []) :
    ∃ v ∈ l, l.count v = cuentaMax l := by
  rcases foldrMax_mem_or_zero (l.map fun v => l.count v) with hm | hz
  · rcases List.mem_map.1 hm with ⟨v, hv, hcount⟩
    exact ⟨v, hv, hcount⟩
  · cases l with
    | nil => exact absurd rfl h
    | cons x xs =>
      exfalso
      have hx : (x :: xs).count x ≤ cuentaMax (x :: xs) :=
        count_le_cuentaMax (List.mem_cons_self _ _)
      have : 0 < (x :: xs).count x := List.count_pos_iff.2 (List.mem_cons_self _ _)
      rw [cuentaMax] at hx
      omega

theorem minimo?_spec :
    ∀ {l : List ℚ} {m : ℚ}, minimo? l = some m → m ∈ l ∧ ∀ v ∈ l, m ≤ v := by
  intro l
  induction l with
  | nil => intro m h; simp [minimo?] at h
  | cons x xs ih =>
    intro m h
    rw [minimo?] at h
    cases hxs : minimo? xs with
    | none =>
      rw [hxs] at h
      simp only [Option.some.injEq] at h
      subst h
      have hxs' : xs = [] := by
        cases xs with
        | nil => rfl
        | cons y ys =>
          rw [minimo?] at hxs
          cases h2 : minimo? ys <;> rw [h2] at hxs <;> simp at hxs
      subst hxs'
      refine ⟨List.mem_cons_self _ _, ?_⟩
      intro v hv
      rcases List.mem_cons.1 hv with rfl | hv'
      · exact le_refl _
      · simp at hv'
    | some m' =>
      rw [hxs] at h
      simp only [Option.some.injEq] at h
      obtain ⟨hmem, hle⟩ := ih hxs
      by_cases hx : x ≤ m'
      · rw [if_pos hx] at h
        subst h
        refine ⟨List.mem_cons_self _ _, ?_⟩
        intro v hv
        rcases List.mem_cons.1 hv with rfl | hv'
        · exact le_refl _
        · exact le_trans hx (hle v hv')
      · rw [if_neg hx] at h
        subst h
        refine ⟨List.mem_cons_of_mem _ hmem, ?_⟩
        intro v hv
        rcases List.mem_cons.1 hv with rfl | hv'
        · exact le_of_not_le hx
        · exact hle v hv'

theorem minimo?_isSome {l : List ℚ} (h : l ≠ []) : ∃ m, minimo? l = some m := by
  cases l with
  | nil => exact absurd rfl h
  | cons x xs =>
    rw [minimo?]
    cases minimo? xs with
    | none => exact ⟨x, rfl⟩
    | some m => exact ⟨if x ≤ m then x else m, rfl⟩

/-- C1: for every parameter with a reference-table entry and every value,
`interpretar_valor` applies the bands in the fixed priority order low
(`valor ≤ bajo.max` gives BAJO, even on the boundary shared with the
mid band), then high (`valor ≥ alto.min` gives ALTO), then mid
(`medio.min ≤ valor ≤ medio.max` gives MEDIO), else FUERA DE RANGO; in
particular over the `ph` ranges, 5.5 is BAJO, 6.5 is MEDIO, 7.5 is ALTO and
7.2 is FUERA DE RANGO. -/
theorem C1_prioridad_clasificacion :
    (∀ (p : String) (r : Rango) (v : ℚ), VALORES_REFERENCIA.lookup p = some r →
      (v ≤ r.bajo.max →
        interpretar_valor p v = ⟨v, "BAJO", "bajo", r.bajo.descripcion⟩) ∧
      (¬ v ≤ r.bajo.max → v ≥ r.alto.min →
        interpretar_valor p v = ⟨v, "ALTO", "alto", r.alto.descripcion⟩) ∧
      (¬ v ≤ r.bajo.max → ¬ v ≥ r.alto.min →
        r.medio.min ≤ v → v ≤ r.medio.max →
        interpretar_valor p v = ⟨v, "MEDIO", "medio", r.medio.descripcion⟩) ∧
      (¬ v ≤ r.bajo.max → ¬ v ≥ r.alto.min →
        ¬ (r.medio.min ≤ v ∧ v ≤ r.medio.max) →
        interpretar_valor p v =
          ⟨v, "FUERA DE RANGO", "fuera_rango",
            "Valor no se encuentra en los rangos definidos"⟩)) ∧
    (interpretar_valor "ph" (11/2)).interpretacion = "BAJO" ∧
    (interpretar_valor "ph" (13/2)).interpretacion = "MEDIO" ∧
    (interpretar_valor "ph" (15/2)).interpretacion = "ALTO" ∧
    (interpretar_valor "ph" (36/5)).interpretacion = "FUERA DE RANGO" := by
  refine ⟨?_,
    by simp only [interpretar_valor, VALORES_REFERENCIA, List.lookup]; norm_num,
    by simp only [interpretar_valor, VALORES_REFERENCIA, List.lookup]; norm_num,
    by simp only [interpretar_valor, VALORES_REFERENCIA, List.lookup]; norm_num,
    by simp only [interpretar_valor, VALORES_REFERENCIA, List.lookup]; norm_num⟩
  intro p r v hlk
  have hiv : interpretar_valor p v =
      (if v ≤ r.bajo.max then (⟨v, "BAJO", "bajo", r.bajo.descripcion⟩ : Interpretacion)
       else if v ≥ r.alto.min then ⟨v, "ALTO", "alto", r.alto.descripcion⟩
       else if r.medio.min ≤ v ∧ v ≤ r.medio.max then
         ⟨v, "MEDIO", "medio", r.medio.descripcion⟩
       else ⟨v, "FUERA DE RANGO", "fuera_rango",
         "Valor no se encuentra en los rangos definidos"⟩) := by
    rw [interpretar_valor, hlk]
  refine ⟨fun h1 => by rw [hiv, if_pos h1], fun h1 h2 => ?_, fun h1 h2 h3 h4 => ?_,
    fun h1 h2 h3 => ?_⟩
  · rw [hiv, if_neg h1, if_pos h2]
  · rw [hiv, if_neg h1, if_neg h2, if_pos ⟨h3, h4⟩]
  · rw [hiv, if_neg h1, if_neg h2, if_neg h3]

/-- Witness for C1 at the parameter `mo` and value 1 (≤ `bajo.max` = 2). -/
theorem C1_testigo :
    interpretar_valor "mo" 1 = ⟨1, "BAJO", "bajo", "< 2%"⟩ := by
  have h := C1_prioridad_clasificacion.1 "mo"
    ⟨⟨2, "< 2%"⟩, ⟨2, 4, "2-4%"⟩, ⟨4, "> 4%"⟩⟩ 1 rfl
  exact h.1 (by norm_num)

/-- C2 counterexample: on the series `[3, 3, 1, 1]` the code's mode
(`scipy.stats.mode`, smallest among the most frequent values) returns 1,
while a tie-break by lowest first-seen index as claimed would return 3. -/
theorem C2_moda_contraejemplo :
    moda [3, 3, 1, 1] = some 1 ∧
    modaPrimerValor [3, 3, 1, 1] = some 3 ∧
    moda ([3, 3, 1, 1] : List ℚ) ≠ modaPrimerValor [3, 3, 1, 1] := by
  decide

/-- C2 as amended: the mode returned by the statistics aggregator is always a
value of maximal occurrence count; when some value repeats, ties between
equally frequent values are broken by the smallest value (not the first-seen
one); when no value repeats, the mode is the first value in original input
order. -/
theorem C2_moda_enmendada (x : ℚ) (xs : List ℚ) :
    ∃ m, moda (x :: xs) = some m ∧ m ∈ x :: xs ∧
      (∀ v ∈ x :: xs, (x :: xs).count v ≤ (x :: xs).count m) ∧
      (1 < cuentaMax (x :: xs) →
        ∀ v ∈ x :: xs, (x :: xs).count v = (x :: xs).count m → m ≤ v) ∧
      (cuentaMax (x :: xs) ≤ 1 → m = x) := by
  have hmoda : moda (x :: xs) =
      if 1 < (x :: xs).length then
        if 1 < cuentaMax (x :: xs) then
          minimo? ((x :: xs).filter fun v => (x :: xs).count v == cuentaMax (x :: xs))
        else some x
      else some x := rfl
  by_cases hc : 1 < cuentaMax (x :: xs)
  · obtain ⟨v0, hv0mem, hv0cnt⟩ :=
      cuentaMax_alcanzada (l := x :: xs) (List.cons_ne_nil _ _)
    have hlen : 1 < (x :: xs).length := by
      have := List.count_le_length v0 (x :: xs)
      omega
    have hv0f : v0 ∈ (x :: xs).filter
        fun v => (x :: xs).count v == cuentaMax (x :: xs) :=
      List.mem_filter.2 ⟨hv0mem, by simp [hv0cnt]⟩
    have hflne : (x :: xs).filter
        (fun v => (x :: xs).count v == cuentaMax (x :: xs)) ≠ [] := by
      intro hnil
      rw [hnil] at hv0f
      exact List.not_mem_nil _ hv0f
    obtain ⟨m, hm⟩ := minimo?_isSome hflne
    obtain ⟨hmmem, hmle⟩ := minimo?_spec hm
    have hmf := List.mem_filter.1 hmmem
    have hmcnt : (x :: xs).count m = cuentaMax (x :: xs) := by
      have := hmf.2
      simpa using this
    refine ⟨m, ?_, hmf.1, ?_, ?_, ?_⟩
    · rw [hmoda, if_pos hlen, if_pos hc]
      exact hm
    · intro v hv
      rw [hmcnt]
      exact count_le_cuentaMax hv
    · intro _ v hv hcnt
      refine hmle v (List.mem_filter.2 ⟨hv, ?_⟩)
      simp [hcnt, hmcnt]
    · intro h
      omega
  · refine ⟨x, ?_, List.mem_cons_self _ _, ?_, fun h => absurd h hc, fun _ => rfl⟩
    · rw [hmoda]
      simp [hc]
    · intro v hv
      have h1 := count_le_cuentaMax hv
      have h2 : 0 < (x :: xs).count x :=
        List.count_pos_iff.2 (List.mem_cons_self _ _)
      have h3 : cuentaMax (x :: xs) ≤ 1 := le_of_not_lt hc
      omega

/-- Witness for C2 at `[2, 2, 1]`: the mode exists, has maximal count, and
the tie-break bound applies (the max count 2 exceeds 1). -/
theorem C2_moda_testigo :
    ∃ m, moda [2, 2, 1] = some m ∧ m ∈ ([2, 2, 1] : List ℚ) ∧
      (∀ v ∈ ([2, 2, 1] : List ℚ),
        ([2, 2, 1] : List ℚ).count v ≤ ([2, 2, 1] : List ℚ).count m) ∧
      (∀ v ∈ ([2, 2, 1] : List ℚ),
        ([2, 2, 1] : List ℚ).count v = ([2, 2, 1] : List ℚ).count m → m ≤ v) := by
  obtain ⟨m, h1, h2, h3, h4, _⟩ := C2_moda_enmendada 2 [2, 1]
  exact ⟨m, h1, h2, h3, h4 (by decide)⟩

theorem sumaDesv2_nonneg (l : List ℚ) : 0 ≤ sumaDesv2 l := by
  apply List.sum_nonneg
  intro x hx
  obtain ⟨y, -, rfl⟩ := List.mem_map.1 hx
  positivity

/-- C3 counterexample: on the single sample `[4]` the code's stddev is `NaN`
(`none`), not 0; and on `[0, 2]` it is `sqrt 2` (divisor n−1 = 1), which
differs from the claimed population standard deviation `sqrt(2/2) = 1`. -/
theorem C3_desviacion_contraejemplo :
    desviacion_estandar [(4 : ℚ)] = none ∧
    desviacion_estandar [(0 : ℚ), 2] ≠
      some (desviacionPoblacional [(0 : ℚ), 2]) := by
  constructor
  · rw [desviacion_estandar, if_neg (by norm_num)]
  · have h2 : sumaDesv2 [(0 : ℚ), 2] = 2 := by
      simp [sumaDesv2, media]
      norm_num
    have hcode : desviacion_estandar [(0 : ℚ), 2] = some (Real.sqrt 2) := by
      rw [desviacion_estandar, if_pos (by norm_num), h2]
      norm_num
    have hspec : desviacionPoblacional [(0 : ℚ), 2] = 1 := by
      rw [desviacionPoblacional, h2]
      norm_num
    rw [hcode, hspec]
    intro heq
    have hs : Real.sqrt 2 = 1 := Option.some.inj heq
    have h := Real.sq_sqrt (by norm_num : (0:ℝ) ≤ 2)
    rw [hs] at h
    norm_num at h

/-- C3 as amended: the stddev field is the sample standard deviation
(Bessel's correction, divisor n−1): for n ≥ 2 it equals
`sqrt(n/(n-1))` times the population standard deviation, and for n = 1 it is
`NaN` (absent), not 0. -/
theorem C3_desviacion_enmendada (l : List ℚ) :
    (l.length = 1 → desviacion_estandar l = none) ∧
    (2 ≤ l.length →
      desviacion_estandar l =
        some (Real.sqrt ((l.length : ℝ) / ((l.length : ℝ) - 1)) *
          desviacionPoblacional l)) := by
  constructor
  · intro h1
    rw [desviacion_estandar, if_neg (by omega)]
  · intro h2
    have hn : (2:ℝ) ≤ (l.length : ℝ) := by exact_mod_cast h2
    have hn0 : (l.length : ℝ) ≠ 0 := by intro h; rw [h] at hn; linarith
    have hn1 : (l.length : ℝ) - 1 ≠ 0 :=
      ne_of_gt (by linarith : (0:ℝ) < (l.length : ℝ) - 1)
    rw [desviacion_estandar, if_pos h2, desviacionPoblacional,
      ← Real.sqrt_mul (by apply div_nonneg <;> linarith)]
    congr 2
    field_simp
    ring

/-- Witness for C3 at `[4]` (n = 1, the NaN branch) and `[0, 2]` (n = 2, the
Bessel-corrected branch). -/
theorem C3_desviacion_testigo :
    desviacion_estandar [(4 : ℚ)] = none ∧
    desviacion_estandar [(0 : ℚ), 2] =
      some (Real.sqrt ((([(0 : ℚ), 2]).length : ℝ) /
          ((([(0 : ℚ), 2]).length : ℝ) - 1)) *
        desviacionPoblacional [(0 : ℚ), 2]) :=
  ⟨(C3_desviacion_enmendada [(4 : ℚ)]).1 rfl,
   (C3_desviacion_enmendada [(0 : ℚ), 2]).2 (by norm_num)⟩

theorem identidad_sesgo (n S2 S3 : ℝ) (hn : 3 ≤ n) (hS2 : 0 < S2) :
    n * Real.sqrt (n - 1) / (n - 2) * (S3 / Real.sqrt (S2 ^ 3)) =
    Real.sqrt (n * (n - 1)) / (n - 2) * ((S3 / n) / Real.sqrt (S2 / n) ^ 3) := by
  have hnpos : (0:ℝ) < n := by linarith
  have hn2 : n - 2 ≠ 0 := by intro h; nlinarith
  have hsn : Real.sqrt n ≠ 0 := ne_of_gt (Real.sqrt_pos.2 hnpos)
  have hsS2 : Real.sqrt S2 ≠ 0 := ne_of_gt (Real.sqrt_pos.2 hS2)
  have e1 : Real.sqrt (S2 ^ 3) = S2 * Real.sqrt S2 := by
    rw [show S2 ^ 3 = S2 ^ 2 * S2 by ring, Real.sqrt_mul (sq_nonneg _),
      Real.sqrt_sq hS2.le]
  have e2 : Real.sqrt (S2 / n) = Real.sqrt S2 / Real.sqrt n :=
    Real.sqrt_div hS2.le n
  have e3 : Real.sqrt (n * (n - 1)) = Real.sqrt n * Real.sqrt (n - 1) :=
    Real.sqrt_mul hnpos.le _
  have e7 : Real.sqrt S2 ^ 3 = S2 * Real.sqrt S2 := by
    rw [pow_succ, Real.sq_sqrt hS2.le]
  have e8 : Real.sqrt n ^ 3 = n * Real.sqrt n := by
    rw [pow_succ, Real.sq_sqrt hnpos.le]
  rw [e1, e2, e3, div_pow, e7, e8]
  field_simp
  ring_nf
  simp only [Real.sq_sqrt hnpos.le]
  ring

/-- C4 counterexample: on the single sample `[4]` (count < 3) the code's
skewness is `NaN` (`none`), not 0; and on `[0, 6, 6, 8]` the code computes the
bias-adjusted coefficient `-(8/9)·sqrt 3`, which differs from the claimed
biased g1 = `-8/9`. -/
theorem C4_sesgo_contraejemplo :
    sesgo [(4 : ℚ)] = none ∧
    sesgo [(0 : ℚ), 6, 6, 8] ≠ some (sesgoPoblacional [(0 : ℚ), 6, 6, 8]) := by
  constructor
  · rw [sesgo, if_pos (by norm_num)]
  · have h2 : sumaDesv2 [(0 : ℚ), 6, 6, 8] = 36 := by
      simp [sumaDesv2, media]
      norm_num
    have h3 : sumaDesv3 [(0 : ℚ), 6, 6, 8] = -96 := by
      simp [sumaDesv3, media]
      norm_num
    have hcode : sesgo [(0 : ℚ), 6, 6, 8] = some (-(8/9) * Real.sqrt 3) := by
      rw [sesgo, if_neg (by norm_num), if_neg (by rw [h2]; norm_num), h2, h3]
      congr 1
      simp only [List.length_cons, List.length_nil]
      push_cast
      rw [show ((36:ℝ)) ^ 3 = 216 ^ 2 by norm_num,
        Real.sqrt_sq (by norm_num : (0:ℝ) ≤ 216),
        show ((4:ℝ) - 1) = 3 by norm_num]
      ring
    have hspec : sesgoPoblacional [(0 : ℚ), 6, 6, 8] = -(8/9) := by
      rw [sesgoPoblacional, desviacionPoblacional, h2, h3]
      simp only [List.length_cons, List.length_nil]
      push_cast
      rw [show ((36:ℝ) / 4) = 3 ^ 2 by norm_num,
        Real.sqrt_sq (by norm_num : (0:ℝ) ≤ 3)]
      norm_num
    rw [hcode, hspec]
    intro heq
    have hs := Option.some.inj heq
    have h1 : Real.sqrt 3 = 1 := by linarith
    have hq := Real.sq_sqrt (by norm_num : (0:ℝ) ≤ 3)
    rw [h1] at hq
    norm_num at hq

/-- C4 as amended: the skewness field is the bias-adjusted Fisher-Pearson
coefficient G1 = `sqrt(n(n-1))/(n-2)` times the biased g1 whenever n ≥ 3 and
the variance is nonzero; it is 0 when all values coincide (n ≥ 3, zero
variance); and for n < 3 it is `NaN` (absent), not 0. -/
theorem C4_sesgo_enmendada (l : List ℚ) :
    (l.length < 3 → sesgo l = none) ∧
    (3 ≤ l.length → sumaDesv2 l = 0 → sesgo l = some 0) ∧
    (3 ≤ l.length → sumaDesv2 l ≠ 0 →
      sesgo l = some (Real.sqrt ((l.length : ℝ) * ((l.length : ℝ) - 1)) /
        ((l.length : ℝ) - 2) * sesgoPoblacional l)) := by
  refine ⟨fun h => by rw [sesgo, if_pos h],
    fun h3 h0 => by rw [sesgo, if_neg (by omega), if_pos h0],
    fun h3 h0 => ?_⟩
  rw [sesgo, if_neg (by omega), if_neg h0, sesgoPoblacional,
    desviacionPoblacional]
  congr 1
  have hS2 : (0:ℝ) < (sumaDesv2 l : ℝ) := by
    have hnn : (0:ℚ) ≤ sumaDesv2 l := sumaDesv2_nonneg l
    have hne : (sumaDesv2 l : ℝ) ≠ 0 := by
      simpa using (Rat.cast_injective.ne_iff (β := ℝ)).2 h0
    have : (0:ℝ) ≤ (sumaDesv2 l : ℝ) := by exact_mod_cast hnn
    exact lt_of_le_of_ne this (Ne.symm hne)
  have hn : (3:ℝ) ≤ (l.length : ℝ) := by exact_mod_cast h3
  exact identidad_sesgo _ _ _ hn hS2

/-- Witness for C4 at `[4]` (n = 1, the NaN branch) and `[0, 6, 6, 8]`
(n = 4, nonzero variance, the adjusted branch). -/
theorem C4_sesgo_testigo :
    sesgo [(4 : ℚ)] = none ∧
    sesgo [(0 : ℚ), 6, 6, 8] =
      some (Real.sqrt ((([(0 : ℚ), 6, 6, 8]).length : ℝ) *
          ((([(0 : ℚ), 6, 6, 8]).length : ℝ) - 1)) /
        ((([(0 : ℚ), 6, 6, 8]).length : ℝ) - 2) *
        sesgoPoblacional [(0 : ℚ), 6, 6, 8]) :=
  ⟨(C4_sesgo_enmendada [(4 : ℚ)]).1 (by norm_num),
   (C4_sesgo_enmendada [(0 : ℚ), 6, 6, 8]).2.2 (by norm_num)
     (by simp [sumaDesv2, media]; norm_num)⟩

theorem insertarOrdenado_length (x : ℚ) :
    ∀ l : List ℚ, (insertarOrdenado x l).length = l.length + 1
  | [] => rfl
  | y :: ys => by
    rw [insertarOrdenado]
    split_ifs
    · rfl
    · simp [insertarOrdenado_length x ys]

theorem ordenar_length (l : List ℚ) : (ordenar l).length = l.length := by
  induction l with
  | nil => rfl
  | cons x xs ih =>
    rw [ordenar, List.foldr_cons, insertarOrdenado_length,
      show xs.foldr insertarOrdenado [] = ordenar xs from rfl, ih,
      List.length_cons]

theorem cuantil_singleton (a p : ℚ) : cuantil [a] p = some a := by
  set s := ordenar [a] with hs
  have hseq : s = [a] := rfl
  set n := s.length with hn
  set hv : ℚ := p * ((n : ℚ) - 1) with hhv
  set j : ℕ := (⌊hv⌋).toNat with hj
  set g : ℚ := hv - (j : ℚ) with hg
  set av := s.getD j 0 with ha
  have hcu : cuantil [a] p = some (av + g * (s.getD (j + 1) av - av)) := rfl
  have hn1 : n = 1 := by rw [hn, hseq]; rfl
  have hv0 : hv = 0 := by rw [hhv, hn1]; norm_num
  have hj0 : j = 0 := by rw [hj, hv0]; simp
  have hg0 : g = 0 := by rw [hg, hv0, hj0]; norm_num
  have hav : av = a := by rw [ha, hseq, hj0]; rfl
  rw [hcu, hg0, hav]
  norm_num

/-- C8: the q1/q3 computation of the statistics report (`datos.quantile(0.25)`
/ `datos.quantile(0.75)`, pandas linear interpolation) coincides with the
type 7 quantile estimator — linear interpolation between the order statistics
`x_j` and `x_(j+1)` at `j = floor((n-1)p)` — for every series and every
`p ∈ [0, 1]`; in particular on a single sample both quartiles equal that
sample. -/
theorem C8_cuantil_tipo7 :
    (∀ (l : List ℚ) (p : ℚ), l ≠ [] → 0 ≤ p → p ≤ 1 →
      cuantil l p = some (cuantilTipo7 l p)) ∧
    (∀ a : ℚ, cuantil [a] (1/4) = some a ∧ cuantil [a] (3/4) = some a) := by
  constructor
  · intro l p hne h0 h1
    cases l with
    | nil => exact absurd rfl hne
    | cons x xs =>
      set s := ordenar (x :: xs) with hs
      set n := s.length with hn
      set hv : ℚ := p * ((n : ℚ) - 1) with hhv
      set j : ℕ := (⌊hv⌋).toNat with hj
      set g : ℚ := hv - (j : ℚ) with hg
      set av := s.getD j 0 with ha
      have hcu : cuantil (x :: xs) p = some (av + g * (s.getD (j + 1) av - av)) := rfl
      have hct : cuantilTipo7 (x :: xs) p =
          (1 - g) * av + g * s.getD (min (j + 1) (n - 1)) 0 := rfl
      have hnpos : 1 ≤ n := by
        rw [hn, hs, ordenar_length]
        simp
      have hn1 : (1:ℚ) ≤ (n:ℚ) := by exact_mod_cast hnpos
      have hv0 : 0 ≤ hv := by
        rw [hhv]
        apply mul_nonneg h0
        linarith
      have hvle : hv ≤ (n : ℚ) - 1 := by
        rw [hhv]
        nlinarith
      have hfl0 : 0 ≤ ⌊hv⌋ := Int.floor_nonneg.2 hv0
      have hjq : (j : ℚ) = (⌊hv⌋ : ℚ) := by
        rw [hj]
        exact_mod_cast Int.toNat_of_nonneg hfl0
      have hjle : (j : ℚ) ≤ hv := by
        rw [hjq]
        exact_mod_cast Int.floor_le hv
      have hjn : j ≤ n - 1 := by
        have h2 : ⌊hv⌋ ≤ (n : ℤ) - 1 := by
          have hfloor : ⌊(n : ℚ) - 1⌋ = (n : ℤ) - 1 := by
            rw [show ((n : ℚ) - 1) = (((n : ℤ) - 1 : ℤ) : ℚ) by push_cast; ring]
            exact Int.floor_intCast _
          calc ⌊hv⌋ ≤ ⌊(n : ℚ) - 1⌋ := Int.floor_mono hvle
            _ = (n : ℤ) - 1 := hfloor
        rw [hj]
        omega
      by_cases hcase : j + 1 < n
      · have hb : s.getD (j + 1) av = s.getD (j + 1) 0 := by
          have hlt : j + 1 < s.length := by rw [← hn]; exact hcase
          rw [List.getD_eq_getElem?_getD, List.getD_eq_getElem?_getD,
            List.getElem?_eq_getElem hlt]
          rfl
        have hmin : min (j + 1) (n - 1) = j + 1 := by omega
        rw [hcu, hct, hb, hmin]
        congr 1
        ring
      · have hjeq : (j : ℚ) = (n : ℚ) - 1 := by
          have : j = n - 1 := by omega
          rw [this]
          push_cast [Nat.cast_sub hnpos]
          ring
        have hg0 : g = 0 := by
          have h5 : hv = (j : ℚ) := le_antisymm (by rw [hjeq]; exact hvle) hjle
          rw [hg, h5]
          ring
        have hmin : min (j + 1) (n - 1) = j := by omega
        rw [hcu, hct, hg0, hmin]
        congr 1
        ring
  · intro a
    exact ⟨cuantil_singleton a (1/4), cuantil_singleton a (3/4)⟩

/-- Witness for C8 at the two-sample series `[2, 1]` with p = 1/4, and at the
singleton `[5]`. -/
theorem C8_cuantil_testigo :
    cuantil [2, 1] (1/4) = some (cuantilTipo7 [2, 1] (1/4)) ∧
    cuantil [(5 : ℚ)] (1/4) = some 5 := by
  constructor
  · exact C8_cuantil_tipo7.1 [2, 1] (1/4) (by simp) (by norm_num) (by norm_num)
  · exact (C8_cuantil_tipo7.2 5).1

/-- C5: a report request matching zero raw rows returns the minimal no-data
dict: only the identifier supplied by the caller is echoed (id for a by-id
lookup, name for a by-name lookup), the counterpart identity field is absent,
and the per-parameter mapping is empty — for both the interpretation and the
statistics report. -/
theorem C5_sin_datos (falla : String → Option String) (db : List Fila) :
    (∀ i : ℤ, filtrar db (Filtro.porId i) = [] →
      obtener_interpretacion_municipio falla db (Filtro.porId i) =
        ⟨some i, none, some "No hay datos para este municipio", none, some []⟩ ∧
      obtener_estadisticas_municipio falla db (Filtro.porId i) =
        ⟨some i, none, some "No hay datos para este municipio", none, some []⟩) ∧
    (∀ s : String, filtrar db (Filtro.porNombre s) = [] →
      obtener_interpretacion_municipio falla db (Filtro.porNombre s) =
        ⟨none, some s, some "No hay datos para este municipio", none, some []⟩ ∧
      obtener_estadisticas_municipio falla db (Filtro.porNombre s) =
        ⟨none, some s, some "No hay datos para este municipio", none, some []⟩) := by
  constructor
  · intro i h
    constructor
    · unfold obtener_interpretacion_municipio
      rw [h]
    · unfold obtener_estadisticas_municipio
      rw [h]
  · intro s h
    constructor
    · unfold obtener_interpretacion_municipio
      rw [h]
    · unfold obtener_estadisticas_municipio
      rw [h]

/-- Witness for C5: the empty database with a by-id filter. -/
theorem C5_testigo :
    obtener_interpretacion_municipio (fun _ => none) [] (Filtro.porId 7) =
      ⟨some 7, none, some "No hay datos para este municipio", none, some []⟩ :=
  ((C5_sin_datos (fun _ => none) []).1 7 rfl).1

/-- C7: whenever at least one raw row matches the filter — whether the lookup
was by numeric id or by name — both identity fields of the result are
populated, resolved from the first matching record. -/
theorem C7_identidad_bidireccional (falla : String → Option String)
    (db : List Fila) (f : Filtro) (fila : Fila) (resto : List Fila)
    (h : filtrar db f = fila :: resto) :
    (obtener_interpretacion_municipio falla db f).municipio_id =
      some fila.municipio_id_FK ∧
    (obtener_interpretacion_municipio falla db f).municipio_nombre =
      some fila.municipio ∧
    (obtener_estadisticas_municipio falla db f).municipio_id =
      some fila.municipio_id_FK ∧
    (obtener_estadisticas_municipio falla db f).municipio_nombre =
      some fila.municipio := by
  unfold obtener_interpretacion_municipio obtener_estadisticas_municipio
  rw [h]
  exact ⟨rfl, rfl, rfl, rfl⟩

/-- Witness for C7: a one-row database looked up by name resolves both the id
and the name. -/
theorem C7_testigo :
    (obtener_interpretacion_municipio (fun _ => none) [fila0]
      (Filtro.porNombre "Tuxtla")).municipio_id = some 1 ∧
    (obtener_interpretacion_municipio (fun _ => none) [fila0]
      (Filtro.porNombre "Tuxtla")).municipio_nombre = some "Tuxtla" := by
  obtain ⟨h1, h2, -, -⟩ := C7_identidad_bidireccional (fun _ => none) [fila0]
    (Filtro.porNombre "Tuxtla") fila0 [] rfl
  exact ⟨h1, h2⟩

/-- C9: every request handler closes the data-source connection on every exit
path — connection failure, body exception, or normal return — so no execution
path ends with the connection still open. -/
theorem C9_conexion_liberada {α : Type} (conectar : Bool) (cuerpo : Salida α) :
    (manejarPeticion conectar cuerpo).2 ≠ EstadoConexion.abierta := by
  cases conectar <;> simp [manejarPeticion, cuerpoConConexion]

/-- C6: with at least one matching row, the report carries the resolved group
identity, the total row count, and one leaf per parameter; a parameter whose
numeric computation raises (oracle `falla`) gets exactly the named error leaf,
while the leaf of every non-failing parameter is the same leaf it would get
with no failures at all — a single parameter's failure never aborts the
report.  Both the interpretation and the statistics builder isolate failures
this way. -/
theorem C6_aislamiento_fallos (falla : String → Option String) (db : List Fila)
    (f : Filtro) (fila : Fila) (resto : List Fila)
    (h : filtrar db f = fila :: resto) :
    ((obtener_interpretacion_municipio falla db f).municipio_id =
        some fila.municipio_id_FK ∧
      (obtener_interpretacion_municipio falla db f).municipio_nombre =
        some fila.municipio ∧
      (obtener_interpretacion_municipio falla db f).total_registros =
        some (fila :: resto).length ∧
      (obtener_interpretacion_municipio falla db f).interpretaciones =
        some (construir_interpretaciones falla (fila :: resto)) ∧
      ∀ p ∈ columnas_interpretacion,
        (p, hojaInterpretacionDe falla (fila :: resto) p) ∈
          construir_interpretaciones falla (fila :: resto) ∧
        (∀ e, falla p = some e →
          0 < ((fila :: resto).filterMap fun r => r.valores p).length →
          hojaInterpretacionDe falla (fila :: resto) p =
            HojaInterpretacion.error ("No se pudo interpretar: " ++ e)) ∧
        (falla p = none →
          hojaInterpretacionDe falla (fila :: resto) p =
            hojaInterpretacionDe (fun _ => none) (fila :: resto) p)) ∧
    ((obtener_estadisticas_municipio falla db f).municipio_id =
        some fila.municipio_id_FK ∧
      (obtener_estadisticas_municipio falla db f).municipio_nombre =
        some fila.municipio ∧
      (obtener_estadisticas_municipio falla db f).total_registros =
        some (fila :: resto).length ∧
      (obtener_estadisticas_municipio falla db f).estadisticas =
        some (construir_estadisticas falla (fila :: resto)) ∧
      ∀ c ∈ columnas_estadisticas,
        (c, hojaEstadisticasDe falla (fila :: resto) c) ∈
          construir_estadisticas falla (fila :: resto) ∧
        (∀ e, falla c = some e →
          0 < ((fila :: resto).filterMap fun r => r.valores c).length →
          hojaEstadisticasDe falla (fila :: resto) c =
            HojaEstadisticas.error
              ("No se pudieron calcular estadísticas: " ++ e)) ∧
        (falla c = none →
          hojaEstadisticasDe falla (fila :: resto) c =
            hojaEstadisticasDe (fun _ => none) (fila :: resto) c)) := by
  have hri : obtener_interpretacion_municipio falla db f =
      ⟨some fila.municipio_id_FK, some fila.municipio, none,
        some (fila :: resto).length,
        some (construir_interpretaciones falla (fila :: resto))⟩ := by
    unfold obtener_interpretacion_municipio
    rw [h]
  have hre : obtener_estadisticas_municipio falla db f =
      ⟨some fila.municipio_id_FK, some fila.municipio, none,
        some (fila :: resto).length,
        some (construir_estadisticas falla (fila :: resto))⟩ := by
    unfold obtener_estadisticas_municipio
    rw [h]
  constructor
  · refine ⟨by rw [hri], by rw [hri], by rw [hri], by rw [hri], ?_⟩
    intro p hp
    refine ⟨List.mem_map_of_mem _ hp, ?_, ?_⟩
    · intro e he hd
      simp only [hojaInterpretacionDe, he, if_pos hd]
    · intro hnone
      simp only [hojaInterpretacionDe, hnone]
  · refine ⟨by rw [hre], by rw [hre], by rw [hre], by rw [hre], ?_⟩
    intro c hc
    refine ⟨List.mem_map_of_mem _ hc, ?_, ?_⟩
    · intro e he hd
      simp only [hojaEstadisticasDe, he, if_pos hd]
    · intro hnone
      simp only [hojaEstadisticasDe, hnone]

/-- Witness for C6: on the one-row database, the failing column `zinc` gets
the error leaf while `mo` keeps the leaf it would get without any failure,
and the row count is still reported. -/
theorem C6_testigo :
    (obtener_interpretacion_municipio falla0 [fila0]
      (Filtro.porId 1)).total_registros = some 1 ∧
    hojaEstadisticasDe falla0 [fila0] "zinc" =
      HojaEstadisticas.error
        "No se pudieron calcular estadísticas: fallo numérico" ∧
    hojaInterpretacionDe falla0 [fila0] "mo" =
      hojaInterpretacionDe (fun _ => none) [fila0] "mo" := by
  obtain ⟨⟨-, -, h3, -, h5⟩, ⟨-, -, -, -, h6⟩⟩ :=
    C6_aislamiento_fallos falla0 [fila0] (Filtro.porId 1) fila0 [] rfl
  refine ⟨h3, ?_, ?_⟩
  · exact (h6 "zinc" (by decide)).2.1 "fallo numérico" rfl (by decide)
  · exact (h5 "mo" (by decide)).2.2 rfl

theorem lookup_mem :
    ∀ {l : List (String × Rango)} {p : String} {r : Rango},
      List.lookup p l = some r → (p, r) ∈ l
  | [], _, _, h => by simp [List.lookup] at h
  | (k, v) :: t, p, r, h => by
    rw [List.lookup] at h
    split at h
    · next heq =>
      have hk : p = k := by simpa using heq
      have hv : v = r := by simpa using h
      rw [hk, ← hv]
      exact List.mem_cons_self _ _
    · exact List.mem_cons_of_mem _ (lookup_mem h)

theorem todasConReferencia :
    ∀ p ∈ columnas_interpretacion, (VALORES_REFERENCIA.lookup p).isSome := by
  decide

theorem descripcionesDistintas :
    ∀ pr ∈ VALORES_REFERENCIA,
      pr.2.bajo.descripcion ≠ "Parámetro sin valores de referencia definidos" ∧
      pr.2.medio.descripcion ≠ "Parámetro sin valores de referencia definidos" ∧
      pr.2.alto.descripcion ≠ "Parámetro sin valores de referencia definidos" := by
  decide

theorem interpretar_en_tabla {p : String}
    (hp : (VALORES_REFERENCIA.lookup p).isSome) (v : ℚ) :
    (interpretar_valor p v).nivel ≠ "sin_referencia" ∧
    (interpretar_valor p v).interpretacion ≠ "No hay referencia disponible" ∧
    (interpretar_valor p v).descripcion ≠
      "Parámetro sin valores de referencia definidos" := by
  obtain ⟨r, hr⟩ := Option.isSome_iff_exists.1 hp
  have hdesc := descripcionesDistintas (p, r) (lookup_mem hr)
  have hiv : interpretar_valor p v =
      (if v ≤ r.bajo.max then (⟨v, "BAJO", "bajo", r.bajo.descripcion⟩ : Interpretacion)
       else if v ≥ r.alto.min then ⟨v, "ALTO", "alto", r.alto.descripcion⟩
       else if r.medio.min ≤ v ∧ v ≤ r.medio.max then
         ⟨v, "MEDIO", "medio", r.medio.descripcion⟩
       else ⟨v, "FUERA DE RANGO", "fuera_rango",
         "Valor no se encuentra en los rangos definidos"⟩) := by
    rw [interpretar_valor, hr]
  rw [hiv]
  split_ifs
  · exact ⟨by simp, by simp, hdesc.1⟩
  · exact ⟨by simp, by simp, hdesc.2.2⟩
  · exact ⟨by simp, by simp, hdesc.2.1⟩
  · exact ⟨by simp, by simp, by simp⟩

/-- C10: every key of the interpretation mapping is one of the 14 keys of the
reference table, and consequently no ok-leaf of an interpretation report ever
carries the `sin_referencia` level, its `No hay referencia disponible` label,
or its no-reference description — the unknown-parameter branch of
`interpretar_valor` is unreachable from the interpretation report builder. -/
theorem C10_sin_referencia_inalcanzable (falla : String → Option String)
    (df : List Fila) :
    ∀ p hoja, (p, hoja) ∈ construir_interpretaciones falla df →
      p ∈ columnas_interpretacion ∧
      ∀ m i nv d c, hoja = HojaInterpretacion.ok m i nv d c →
        nv ≠ "sin_referencia" ∧ i ≠ "No hay referencia disponible" ∧
        d ≠ "Parámetro sin valores de referencia definidos" := by
  intro p hoja hmem
  rw [construir_interpretaciones] at hmem
  obtain ⟨q, hq, heq⟩ := List.mem_map.1 hmem
  rw [Prod.mk.injEq] at heq
  obtain ⟨rfl, rfl⟩ := heq
  refine ⟨hq, ?_⟩
  intro m i nv d c hok
  have htab := todasConReferencia q hq
  rw [hojaInterpretacionDe] at hok
  split at hok
  · split at hok
    · exact absurd hok (by simp)
    · simp only [HojaInterpretacion.ok.injEq] at hok
      obtain ⟨-, hi, hnv, hd, -⟩ := hok
      have := interpretar_en_tabla htab ((mediana
        (df.filterMap fun fila => fila.valores q)).getD 0)
      rw [← hi, ← hnv, ← hd]
      exact ⟨this.1, this.2.1, this.2.2⟩
  · exact absurd hok (by simp)

/-- Witness for C10: the `mo` leaf of the one-row database is inside the
mapping, its key is a reference-table key, and its level is not
`sin_referencia`. -/
theorem C10_testigo :
    "mo" ∈ columnas_interpretacion ∧ ("bajo" : String) ≠ "sin_referencia" := by
  have h := C10_sin_referencia_inalcanzable (fun _ => none) [fila0] "mo"
    (HojaInterpretacion.ok 1 "BAJO" "bajo" "< 2%" 1) (by decide)
  exact ⟨h.1, (h.2 1 "BAJO" "bajo" "< 2%" 1 rfl).1⟩
